import Mathlib

/-!
Verification of the live-trivia session engine.

The development shallow-embeds the two core components:
* the Session Registry (the socket server: room lifecycle, roster, host
  privilege, score aggregation, disconnect handling), and
* the Round Engine (the Arena component: difficulty multiplier, answer
  scoring, phase transitions, and the simulated-opponent success chance).

JS numbers carrying scores are modelled as `Int`, probabilities and
multipliers as `ℚ`.  Transport ids (socket ids) and stable player ids are
modelled as `String`.
-/

namespace Quiz

/- ===================== Shared data model ===================== -/

/-- Game modes (`GameMode` in types). -/
inductive GameMode
  | CLASSIC
  | SURVIVAL
  | TIME_ATTACK
deriving DecidableEq

/-- Difficulty tiers (`Difficulty` in types). -/
inductive Difficulty
  | ROOKIE
  | PRO
  | ALL_STAR
  | HALL_OF_FAME
deriving DecidableEq

/-- Room lifecycle phase on the registry side: rooms are only ever
`'LOBBY'` or `'PLAYING'` on the server. -/
inductive RoomPhase
  | LOBBY
  | PLAYING
deriving DecidableEq

/-- Room configuration as exchanged on the wire: `{ topic, difficulty, mode }`. -/
structure Config where
  topic : String
  difficulty : Difficulty
  mode : GameMode
deriving DecidableEq

/-- The caller-supplied participant payload of `create_room` / `join_room`.
The client sends `{ name, avatar, id }`; since the server spreads the whole
object into the seat, we also model possible `score` / `streak` /
`correctAnswersCount` fields carried by the payload (absent numeric fields
behave as `0` under the server's `(x || 0)` coercion). -/
structure PlayerPayload where
  id : String
  name : String
  avatar : String
  score : Int
  streak : Nat
  correctAnswersCount : Nat
deriving DecidableEq

/-- One seat of a room as stored by the registry:
`{ ...player, socketId: socket.id, score: 0, streak: 0 }` plus the
`correctAnswersCount` field mutated by `submit_answer`. -/
structure Seat where
  id : String
  name : String
  avatar : String
  socketId : String
  score : Int
  streak : Nat
  correctAnswersCount : Nat
deriving DecidableEq

/-- A question as it appears in the frozen question set (only the fields
the engine reads are modelled). -/
structure Question where
  qid : String
  text : String
  options : List String
  correctAnswerIndex : Nat
  category : String
deriving DecidableEq

/-- A room as stored in the registry's `rooms` map. -/
structure Room where
  id : String
  hostId : String
  players : List Seat
  config : Config
  phase : RoomPhase
  questions : List Question
deriving DecidableEq

/- ===================== Session Registry ===================== -/

/-- Seat construction `{ ...player, socketId: socket.id, score: 0, streak: 0 }`:
the spread keeps the payload's identity fields (and its
`correctAnswersCount`, which is not overridden), while `score` and `streak`
are overwritten with `0`. -/
def mkSeat (p : PlayerPayload) (sid : String) : Seat :=
  { id := p.id
    name := p.name
    avatar := p.avatar
    socketId := sid
    score := 0
    streak := 0
    correctAnswersCount := p.correctAnswersCount }

/-- `create_room` handler: a fresh room with the caller as sole seat and host. -/
def createRoom (roomId : String) (sid : String) (p : PlayerPayload) (config : Config) : Room :=
  { id := roomId
    hostId := sid
    players := [mkSeat p sid]
    config := config
    phase := RoomPhase.LOBBY
    questions := [] }

/-- Replace the first seat satisfying `f` by its image under `g`
(the JS handlers mutate `room.players[findIndex(...)]` in place). -/
def updateFirst (f : Seat → Bool) (g : Seat → Seat) : List Seat → List Seat
  | [] => []
  | s :: rest => if f s then g s :: rest else s :: updateFirst f g rest

/-- Remove the first seat satisfying `f` (the JS `splice(index, 1)` at
the first matching index). -/
def removeFirst (f : Seat → Bool) : List Seat → List Seat
  | [] => []
  | s :: rest => if f s then rest else s :: removeFirst f rest

/-- Outcome of a `join_room` request (the `error` events the handler can
emit, or success). -/
inductive JoinResult
  | ok
  | errGameAlreadyStarted
  | errRoomFull
deriving DecidableEq

/-- `join_room` handler for a room that was found in the map.
Guard order follows the source: the phase check and the capacity check
each make an exception when the stable id is already seated; then the
handler branches on rejoin (update the seat's transport id, possibly
transferring host privilege) versus appending a fresh seat. -/
def joinRoom (room : Room) (sid : String) (p : PlayerPayload) : JoinResult × Room :=
  if room.phase ≠ RoomPhase.LOBBY ∧ (room.players.find? fun q => q.id = p.id).isNone then
    (JoinResult.errGameAlreadyStarted, room)
  else if 8 ≤ room.players.length ∧ (room.players.find? fun q => q.id = p.id).isNone then
    (JoinResult.errRoomFull, room)
  else
    match room.players.find? (fun q => q.id = p.id) with
    | some existing =>
        -- rejoin: transfer host privilege when the reclaimed seat was the
        -- host (matched by the old socket id, or by being roster index 0)
        let hostId' :=
          if room.hostId = existing.socketId
              ∨ room.players.findIdx (fun q => q.id = p.id) = 0 then
            sid
          else
            room.hostId
        (JoinResult.ok,
          { room with
              hostId := hostId'
              players := updateFirst (fun q => q.id = p.id)
                (fun q => { q with socketId := sid }) room.players })
    | none =>
        (JoinResult.ok, { room with players := room.players ++ [mkSeat p sid] })

/-- `update_config` handler: accepted only when the sender's transport id
is the current host id.  The boolean reports whether the new config was
stored and relayed to the rest of the room. -/
def updateConfig (room : Room) (sid : String) (config : Config) : Room × Bool :=
  if room.hostId ≠ sid then
    (room, false)
  else
    ({ room with config := config }, true)

/-- `start_game` handler: only the host may start; freezes the question
set and flips the phase.  The boolean reports success. -/
def startGame (room : Room) (sid : String) (questions : List Question) : Room × Bool :=
  if room.hostId ≠ sid then
    (room, false)
  else
    ({ room with questions := questions, phase := RoomPhase.PLAYING }, true)

/-- Seat mutation performed by `submit_answer`:
`score += scoreToAdd`; positive deltas bump streak and correct-count,
otherwise the streak resets to 0. -/
def submitSeat (delta : Int) (s : Seat) : Seat :=
  if 0 < delta then
    { s with
        score := s.score + delta
        streak := s.streak + 1
        correctAnswersCount := s.correctAnswersCount + 1 }
  else
    { s with score := s.score + delta, streak := 0 }

/-- `submit_answer` handler: the caller's seat is resolved by transport id
(first match); when no seat matches the message is a silent no-op. -/
def submitAnswer (room : Room) (sid : String) (delta : Int) : Room :=
  { room with players := updateFirst (fun q => q.socketId = sid) (submitSeat delta) room.players }

/-- A sequence of `submit_answer` events `(senderSocketId, scoreToAdd)`
applied in arrival order. -/
def runSubmits (room : Room) (es : List (String × Int)) : Room :=
  es.foldl (fun r e => submitAnswer r e.1 e.2) room

/-- Observable side effects of the disconnect handler. -/
inductive Effect
  | updatePlayers (roomId : String) (roster : List Seat)
deriving DecidableEq

/-- Body of the `disconnect` handler for one room of the registry's
`forEach`: `none` means the room was deleted.  A seat is touched only in
`LOBBY`; a `PLAYING` room is left untouched (to allow reconnection) and
nothing is broadcast. -/
def disconnectRoom (room : Room) (sid : String) : Option Room × List Effect :=
  match room.players.find? (fun q => q.socketId = sid) with
  | none => (some room, [])
  | some _ =>
    match room.phase with
    | RoomPhase.PLAYING => (some room, [])
    | RoomPhase.LOBBY =>
      let players' := removeFirst (fun q => q.socketId = sid) room.players
      match players' with
      | [] => (none, [Effect.updatePlayers room.id []])
      | q :: rest =>
          let hostId' := if room.hostId = sid then q.socketId else room.hostId
          (some { room with players := q :: rest, hostId := hostId' },
            [Effect.updatePlayers room.id (q :: rest)])

/-- `disconnect` over the whole registry: every room is processed by
`disconnectRoom`, deleted rooms are dropped, effects are concatenated. -/
def disconnect (roomsList : List Room) (sid : String) : List Room × List Effect :=
  roomsList.foldr
    (fun room acc =>
      let step := disconnectRoom room sid
      (match step.1 with
       | none => acc.1
       | some r => r :: acc.1,
       step.2 ++ acc.2))
    ([], [])

/- ===================== Round Engine (Arena) ===================== -/

/-- Client-side phase machine of the Arena. -/
inductive GamePhase
  | PLAYING
  | ROUND_RESULT
  | GAME_OVER
deriving DecidableEq

/-- `const BASE_POINTS = 100`. -/
def BASE_POINTS : Int := 100

/-- `getDifficultyMultiplier(streak, baseDiff)`: sequential reassignment
of `mult`, the default `1.0` standing for `ROOKIE`. -/
def getDifficultyMultiplier (streak : Nat) (baseDiff : Difficulty) : ℚ :=
  let mult : ℚ := 1
  let mult := if baseDiff = Difficulty.PRO then 12/10 else mult
  let mult := if baseDiff = Difficulty.ALL_STAR then 15/10 else mult
  let mult := if baseDiff = Difficulty.HALL_OF_FAME then 2 else mult
  let mult := if streak > 2 then mult + 2/10 else mult
  let mult := if streak > 5 then mult + 5/10 else mult
  mult

/-- The `pendingAnswerUpdate` record staged by `handleAnswer`:
`{ scoreToAdd, streak, correct }`. -/
structure AnswerOutcome where
  scoreToAdd : Int
  streak : Nat
  correct : Bool
deriving DecidableEq

/-- The slice of Arena component state that `handleAnswer` / `handleTimeUp`
read and write: the phase, the locked option, the tracked player's current
streak, and the staged round outcome. -/
structure EngineState where
  phase : GamePhase
  selectedOption : Option Nat
  streak : Nat
  pending : Option AnswerOutcome
deriving DecidableEq

/-- The Arena state on entering a question. -/
def initEngineState (streak : Nat) : EngineState :=
  { phase := GamePhase.PLAYING
    selectedOption := none
    streak := streak
    pending := none }

/-- `handleAnswer(optionIndex)`: guarded by `phase === PLAYING` and no
prior selection; computes the staged outcome from correctness, the current
streak and the elapsed time, in every game mode alike.  The phase is not
changed here (source comment: "DO NOT setPhase(ROUND_RESULT) here. Wait
for Timer.").  The `mode` argument is carried to make the mode-independence
of the computation explicit. -/
def handleAnswer (mode : GameMode) (difficulty : Difficulty) (st : EngineState)
    (optionIndex : Nat) (correctAnswerIndex : Nat) (elapsedSeconds : ℚ) : EngineState :=
  if st.phase ≠ GamePhase.PLAYING ∨ st.selectedOption.isSome then
    st
  else
    let isCorrect := optionIndex = correctAnswerIndex
    let outcome : AnswerOutcome :=
      if isCorrect then
        let difficultyMult := getDifficultyMultiplier st.streak difficulty
        let speedFactor := max 0 (1 - elapsedSeconds / 10)
        let timeBonus := Int.floor ((50 : ℚ) * speedFactor)
        { scoreToAdd := Int.floor (((BASE_POINTS + timeBonus : Int) : ℚ) * difficultyMult)
          streak := st.streak + 1
          correct := true }
      else
        { scoreToAdd := 0, streak := 0, correct := false }
    { st with selectedOption := some optionIndex, pending := some outcome }

/-- `handleTimeUp()`: in Time-Attack the global clock expiring ends the
game outright; in the other modes the timer drives the reveal. -/
def handleTimeUp (mode : GameMode) (st : EngineState) : EngineState :=
  if st.phase ≠ GamePhase.PLAYING then
    st
  else if mode = GameMode.TIME_ATTACK then
    { st with phase := GamePhase.GAME_OVER }
  else
    { st with phase := GamePhase.ROUND_RESULT }

/-- The uniform jitter `(Math.random() * 0.10) - 0.05` as a function of the
raw random sample `r ∈ [0, 1)`. -/
def botJitter (r : ℚ) : ℚ := r * (10/100) - 5/100

/-- Pre-clamp bot success chance, from `processRoundResults`:
base accuracy plus jitter, `+0.25` on a specialty match, and the
rubber-banding adjustments against the tracked human's score. -/
def botChancePre (baseAccuracy jitter : ℚ) (isSpecialty : Bool) (scoreDiff : Int) : ℚ :=
  let chance := baseAccuracy + jitter
  let chance := if isSpecialty then chance + 25/100 else chance
  let chance := if scoreDiff > 300 then chance + 15/100 else chance
  let chance := if scoreDiff < -400 then chance - 10/100 else chance
  chance

/-- `chance = Math.min(0.98, Math.max(0.05, chance))`. -/
def clampChance (c : ℚ) : ℚ := min (98/100) (max (5/100) c)

/-- The effective success probability a bot's round outcome is sampled
with. -/
def botChance (baseAccuracy jitter : ℚ) (isSpecialty : Bool) (scoreDiff : Int) : ℚ :=
  clampChance (botChancePre baseAccuracy jitter isSpecialty scoreDiff)

/-- The specification's formula for the pre-clamp bot chance, restricted to
the case it is compared against: a non-specialty question, no rubber-band
trigger (score difference 0), and a round outside the final stretch (so no
clutch/choke swing).  The spec then asks for a penalty between `-0.25` and
`-0.15` scaled by question difficulty; the scaling is abstracted into an
existential penalty in that interval.  This definition follows the spec's
words, for comparison with `botChancePre`, which follows the source. -/
def specPreClampChance (baseAccuracy jitter pre : ℚ) : Prop :=
  ∃ penalty : ℚ, -(25/100) ≤ penalty ∧ penalty ≤ -(15/100) ∧
    pre = baseAccuracy + jitter + penalty

/- ===================== Round-engine theorems ===================== -/

/-- C6: the difficulty multiplier is strictly monotone in both arguments:
for any fixed streak, multiplier(HALL_OF_FAME) > multiplier(ALL_STAR) >
multiplier(PRO) > multiplier(ROOKIE); and for any fixed difficulty,
multiplier(streak 6) > multiplier(streak 3) > multiplier(streak 0). -/
theorem difficulty_multiplier_monotone :
    (∀ streak : Nat,
        getDifficultyMultiplier streak Difficulty.ROOKIE <
          getDifficultyMultiplier streak Difficulty.PRO ∧
        getDifficultyMultiplier streak Difficulty.PRO <
          getDifficultyMultiplier streak Difficulty.ALL_STAR ∧
        getDifficultyMultiplier streak Difficulty.ALL_STAR <
          getDifficultyMultiplier streak Difficulty.HALL_OF_FAME) ∧
    (∀ d : Difficulty,
        getDifficultyMultiplier 0 d < getDifficultyMultiplier 3 d ∧
        getDifficultyMultiplier 3 d < getDifficultyMultiplier 6 d) := by
  constructor
  · intro streak
    unfold getDifficultyMultiplier
    split_ifs <;> simp_all <;> norm_num
  · intro d
    cases d <;> (unfold getDifficultyMultiplier; norm_num)

/-- C7: for all bot parameters, jitter samples and score differences, the
effective (post-clamp) success probability lies in [0.05, 0.98]. -/
theorem bot_chance_clamped (baseAccuracy jitter : ℚ) (isSpecialty : Bool) (scoreDiff : Int) :
    5/100 ≤ botChance baseAccuracy jitter isSpecialty scoreDiff ∧
    botChance baseAccuracy jitter isSpecialty scoreDiff ≤ 98/100 := by
  unfold botChance clampChance
  exact ⟨le_min (by norm_num) (le_max_left _ _), min_le_left _ _⟩

/-- C8 counterexample: at base accuracy 0.40 (the `bot-3` persona), zero
jitter, a non-specialty question and score difference 0, the source's
pre-clamp chance is exactly 0.40, which no difficulty-scaled penalty in
[-0.25, -0.15] can reproduce: the spec's formula is not what the code
computes. -/
theorem bot_chance_formula_counterexample :
    botChancePre (40/100) 0 false 0 = 40/100 ∧
    ¬ specPreClampChance (40/100) 0 (botChancePre (40/100) 0 false 0) := by
  have h : botChancePre (40/100) 0 false 0 = 40/100 := by
    norm_num [botChancePre]
  refine ⟨h, ?_⟩
  rw [h]
  rintro ⟨penalty, h1, h2, h3⟩
  have hp : penalty = 0 := by linarith
  rw [hp] at h2
  norm_num at h2

/-- C8 (amended): the pre-clamp success probability equals base accuracy
plus a uniform jitter in [-0.05, +0.05), plus 0.25 on a specialty match
(no penalty otherwise), plus 0.15 when trailing the tracked human by more
than 300 points, minus 0.10 when leading by more than 400 points; there is
no difficulty-scaled miss penalty and no clutch/choke swing. -/
theorem bot_chance_formula (baseAccuracy r : ℚ) (isSpecialty : Bool) (scoreDiff : Int)
    (h0 : 0 ≤ r) (h1 : r < 1) :
    -(5/100) ≤ botJitter r ∧ botJitter r < 5/100 ∧
    botChancePre baseAccuracy (botJitter r) isSpecialty scoreDiff =
      baseAccuracy + botJitter r + (if isSpecialty then (25:ℚ)/100 else 0) +
        (if scoreDiff > 300 then (15:ℚ)/100 else 0) -
        (if scoreDiff < -400 then (10:ℚ)/100 else 0) := by
  refine ⟨by unfold botJitter; linarith, by unfold botJitter; linarith, ?_⟩
  unfold botChancePre
  split_ifs <;> ring

/-- Concrete instance of the amended C8 formula. -/
theorem bot_chance_formula_witness :
    -(5/100) ≤ botJitter (1/2) ∧ botJitter (1/2) < 5/100 ∧
    botChancePre (60/100) (botJitter (1/2)) true 0 =
      (60:ℚ)/100 + botJitter (1/2) + (if (true : Bool) then (25:ℚ)/100 else 0) +
        (if (0:Int) > 300 then (15:ℚ)/100 else 0) -
        (if (0:Int) < -400 then (10:ℚ)/100 else 0) :=
  bot_chance_formula (60/100) (1/2) true 0 (by norm_num) (by norm_num)

/-- C4: the source computes Time-Attack answers with the Classic formula.
At the failing input (Time-Attack, ROOKIE difficulty, streak 0, correct
answer at elapsed 0 seconds) the staged delta is 150, not the +1 the mode
advertises; an incorrect answer stages 0, not -1. -/
theorem time_attack_scoring_at_failing_input :
    (handleAnswer GameMode.TIME_ATTACK Difficulty.ROOKIE (initEngineState 0) 0 0 0).pending =
      some { scoreToAdd := 150, streak := 1, correct := true } ∧
    (handleAnswer GameMode.TIME_ATTACK Difficulty.ROOKIE (initEngineState 0) 1 0 0).pending =
      some { scoreToAdd := 0, streak := 0, correct := false } := by
  constructor
  · norm_num [handleAnswer, initEngineState, getDifficultyMultiplier, BASE_POINTS]
    simp
  · norm_num [handleAnswer, initEngineState]

/-- C5: answering in Time-Attack does not move the phase at all — it stays
PLAYING (the claimed immediate transition to ROUND_RESULT does not happen);
the only exit from PLAYING in Time-Attack is the global clock expiring,
which jumps straight to GAME_OVER. -/
theorem time_attack_no_immediate_reveal :
    (handleAnswer GameMode.TIME_ATTACK Difficulty.ROOKIE (initEngineState 0) 0 0 0).phase =
      GamePhase.PLAYING ∧
    (∀ st : EngineState, st.phase = GamePhase.PLAYING →
      (handleTimeUp GameMode.TIME_ATTACK st).phase = GamePhase.GAME_OVER) := by
  constructor
  · norm_num [handleAnswer, initEngineState]
  · intro st h
    simp [handleTimeUp, h]

/-- Concrete instance of the C5 theorem's timer clause. -/
theorem time_attack_no_immediate_reveal_witness :
    (handleTimeUp GameMode.TIME_ATTACK (initEngineState 0)).phase = GamePhase.GAME_OVER :=
  time_attack_no_immediate_reveal.2 (initEngineState 0) rfl

/- ===================== Registry lemmas ===================== -/

theorem submitSeat_socketId (delta : Int) (s : Seat) :
    (submitSeat delta s).socketId = s.socketId := by
  unfold submitSeat
  split_ifs <;> rfl

theorem submitSeat_score (delta : Int) (s : Seat) :
    (submitSeat delta s).score = s.score + delta := by
  unfold submitSeat
  split_ifs <;> rfl

theorem submitAnswer_single_hit (sid : String) (delta : Int) (room : Room) (s : Seat)
    (h : room.players = [s]) (hsid : s.socketId = sid) :
    (submitAnswer room sid delta).players = [submitSeat delta s] := by
  simp [submitAnswer, updateFirst, h, hsid]

theorem submitAnswer_single_miss (other : String) (delta : Int) (room : Room) (s : Seat)
    (h : room.players = [s]) (hsid : s.socketId ≠ other) :
    (submitAnswer room other delta).players = [s] := by
  simp [submitAnswer, updateFirst, h, hsid]

theorem runSubmits_cons (room : Room) (e : String × Int) (rest : List (String × Int)) :
    runSubmits room (e :: rest) = runSubmits (submitAnswer room e.1 e.2) rest := by
  simp [runSubmits]

theorem runSubmits_append_single (room : Room) (es : List (String × Int)) (e : String × Int) :
    runSubmits room (es ++ [e]) = submitAnswer (runSubmits room es) e.1 e.2 := by
  simp [runSubmits, List.foldl_append]

/-- Invariant of `submit_answer` sequences over a single-seat room: the
seat keeps its transport id and its score accrues exactly the deltas sent
from that transport id. -/
theorem runSubmits_single (sid : String) :
    ∀ (es : List (String × Int)) (room : Room) (s : Seat),
      room.players = [s] → s.socketId = sid →
      ∃ t : Seat, (runSubmits room es).players = [t] ∧ t.socketId = sid ∧
        t.score = s.score + ((es.filter (fun e => e.1 = sid)).map Prod.snd).sum := by
  intro es
  induction es with
  | nil =>
    intro room s h hs
    exact ⟨s, by simpa [runSubmits] using h, hs, by simp⟩
  | cons e rest ih =>
    intro room s h hs
    by_cases heq : e.1 = sid
    · have h2 : (submitAnswer room e.1 e.2).players = [submitSeat e.2 s] :=
        submitAnswer_single_hit e.1 e.2 room s h (by rw [hs, heq])
      obtain ⟨t, ht, hts, htscore⟩ :=
        ih (submitAnswer room e.1 e.2) (submitSeat e.2 s) h2
          (by rw [submitSeat_socketId]; exact hs)
      refine ⟨t, by rwa [runSubmits_cons], hts, ?_⟩
      rw [htscore, submitSeat_score]
      simp [heq]
      ring
    · have h2 : (submitAnswer room e.1 e.2).players = [s] :=
        submitAnswer_single_miss e.1 e.2 room s h (by rw [hs]; exact fun c => heq c.symm)
      obtain ⟨t, ht, hts, htscore⟩ := ih (submitAnswer room e.1 e.2) s h2 hs
      refine ⟨t, by rwa [runSubmits_cons], hts, ?_⟩
      rw [htscore]
      simp [heq]

/- ===================== Registry theorems ===================== -/

/-- C1: against a freshly created room, a seat's final score is the sum of
the deltas submitted from its transport id; a submission with delta ≤ 0
leaves the streak at exactly 0, and one with delta > 0 bumps streak and
correct-count by exactly 1 (and the score by the delta). -/
theorem submit_answer_accounting (rid hostSid : String) (p : PlayerPayload)
    (cfg : Config) (es : List (String × Int)) (d : Int) :
    (∃ t : Seat, (runSubmits (createRoom rid hostSid p cfg) es).players = [t] ∧
        t.socketId = hostSid ∧
        t.score = ((es.filter (fun e => e.1 = hostSid)).map Prod.snd).sum) ∧
    (d ≤ 0 → ∃ t : Seat,
        (runSubmits (createRoom rid hostSid p cfg) (es ++ [(hostSid, d)])).players = [t] ∧
        t.streak = 0) ∧
    (0 < d → ∃ t u : Seat,
        (runSubmits (createRoom rid hostSid p cfg) es).players = [t] ∧
        (runSubmits (createRoom rid hostSid p cfg) (es ++ [(hostSid, d)])).players = [u] ∧
        u.score = t.score + d ∧
        u.streak = t.streak + 1 ∧
        u.correctAnswersCount = t.correctAnswersCount + 1) := by
  have hinit : (createRoom rid hostSid p cfg).players = [mkSeat p hostSid] := rfl
  have hsid : (mkSeat p hostSid).socketId = hostSid := rfl
  obtain ⟨t, ht, hts, htscore⟩ :=
    runSubmits_single hostSid es (createRoom rid hostSid p cfg) (mkSeat p hostSid) hinit hsid
  have hlast : (runSubmits (createRoom rid hostSid p cfg) (es ++ [(hostSid, d)])).players =
      [submitSeat d t] := by
    rw [runSubmits_append_single]
    exact submitAnswer_single_hit hostSid d _ t ht hts
  refine ⟨⟨t, ht, hts, by simpa [mkSeat] using htscore⟩, ?_, ?_⟩
  · intro hd
    refine ⟨submitSeat d t, hlast, ?_⟩
    unfold submitSeat
    rw [if_neg (not_lt.mpr hd)]
  · intro hd
    refine ⟨t, submitSeat d t, ht, hlast, ?_, ?_, ?_⟩ <;>
      (unfold submitSeat; rw [if_pos hd])

/- Concrete material shared by the witnesses. -/

def samplePayload : PlayerPayload :=
  { id := "alice", name := "Alice", avatar := "a.png",
    score := 0, streak := 0, correctAnswersCount := 0 }

def sampleConfig : Config :=
  { topic := "Futebol", difficulty := Difficulty.PRO, mode := GameMode.CLASSIC }

def sampleSeat : Seat :=
  { id := "alice", name := "Alice", avatar := "a.png", socketId := "h1",
    score := 0, streak := 0, correctAnswersCount := 0 }

def sampleLobbyRoom : Room :=
  { id := "R1", hostId := "h1", players := [sampleSeat], config := sampleConfig,
    phase := RoomPhase.LOBBY, questions := [] }

def samplePlayingRoom : Room :=
  { sampleLobbyRoom with phase := RoomPhase.PLAYING }

def sampleConfig2 : Config :=
  { topic := "Basquete", difficulty := Difficulty.ROOKIE, mode := GameMode.CLASSIC }

/-- Concrete instance of C1: the host submits +120 then 0; the score is the
sum of the two deltas and the streak ends at 0. -/
theorem submit_answer_accounting_witness :
    (∃ t : Seat,
        (runSubmits (createRoom "R1" "h1" samplePayload sampleConfig) [("h1", 120)]).players =
          [t] ∧
        t.socketId = "h1" ∧
        t.score = (([(("h1" : String), (120 : Int))].filter
          (fun e => e.1 = "h1")).map Prod.snd).sum) ∧
    (∃ t : Seat,
        (runSubmits (createRoom "R1" "h1" samplePayload sampleConfig)
          ([("h1", 120)] ++ [("h1", 0)])).players = [t] ∧
        t.streak = 0) :=
  ⟨(submit_answer_accounting "R1" "h1" samplePayload sampleConfig [("h1", 120)] 0).1,
   (submit_answer_accounting "R1" "h1" samplePayload sampleConfig [("h1", 120)] 0).2.1
     (by norm_num)⟩

/-- C2: on a room in phase PLAYING, `join_room` succeeds iff the joining
stable id already occupies a seat; if it is not seated, the call fails
with GameAlreadyStarted and leaves the room unchanged — regardless of the
roster's size. -/
theorem join_playing_iff_seated (room : Room) (sid : String) (p : PlayerPayload)
    (hPhase : room.phase = RoomPhase.PLAYING) :
    ((room.players.find? fun q => q.id = p.id).isSome →
      (joinRoom room sid p).1 = JoinResult.ok) ∧
    ((room.players.find? fun q => q.id = p.id) = none →
      joinRoom room sid p = (JoinResult.errGameAlreadyStarted, room)) := by
  constructor
  · intro hsome
    obtain ⟨ex, hex⟩ := Option.isSome_iff_exists.mp hsome
    simp [joinRoom, hex]
  · intro hnone
    simp [joinRoom, hnone, hPhase]

/-- Concrete instance of C2: the already-seated stable id rejoins a
PLAYING room successfully, while a fresh identity is turned away with the
room unchanged. -/
theorem join_playing_iff_seated_witness :
    (joinRoom samplePlayingRoom "s2" samplePayload).1 = JoinResult.ok ∧
    joinRoom samplePlayingRoom "s2"
        { samplePayload with id := "bob", name := "Bob" } =
      (JoinResult.errGameAlreadyStarted, samplePlayingRoom) :=
  ⟨(join_playing_iff_seated samplePlayingRoom "s2" samplePayload rfl).1 (by decide),
   (join_playing_iff_seated samplePlayingRoom "s2"
      { samplePayload with id := "bob", name := "Bob" } rfl).2 (by decide)⟩

/-- C3: when a stable id that holds the host seat (matched by the old
transport id or by being roster index 0) rejoins on a new transport id,
host privilege moves to the new transport id, and a subsequent
`update_config` from the old transport id is rejected: the room is
returned unchanged and nothing is relayed. -/
theorem host_reconnect_transfers (room : Room) (newSid : String) (p : PlayerPayload)
    (existing : Seat) (cfg2 : Config)
    (hFind : room.players.find? (fun q => q.id = p.id) = some existing)
    (hHost : room.hostId = existing.socketId ∨
      room.players.findIdx (fun q => q.id = p.id) = 0)
    (hNew : newSid ≠ existing.socketId) :
    (joinRoom room newSid p).1 = JoinResult.ok ∧
    (joinRoom room newSid p).2.hostId = newSid ∧
    updateConfig (joinRoom room newSid p).2 existing.socketId cfg2 =
      ((joinRoom room newSid p).2, false) := by
  have hj : joinRoom room newSid p =
      (JoinResult.ok,
        { room with
            hostId := newSid
            players := updateFirst (fun q => q.id = p.id)
              (fun q => { q with socketId := newSid }) room.players }) := by
    simp [joinRoom, hFind]
    intro hA hB
    rcases hHost with h | h
    · exact absurd h hA
    · exact absurd h hB
  rw [hj]
  exact ⟨rfl, rfl, by simp [updateConfig, hNew]⟩

/-- Concrete instance of C3: the host rejoins on transport "h2"; privilege
moves there and a config update from the stale "h1" transport is refused. -/
theorem host_reconnect_transfers_witness :
    (joinRoom sampleLobbyRoom "h2" samplePayload).1 = JoinResult.ok ∧
    (joinRoom sampleLobbyRoom "h2" samplePayload).2.hostId = "h2" ∧
    updateConfig (joinRoom sampleLobbyRoom "h2" samplePayload).2
        sampleSeat.socketId sampleConfig2 =
      ((joinRoom sampleLobbyRoom "h2" samplePayload).2, false) :=
  host_reconnect_transfers sampleLobbyRoom "h2" samplePayload sampleSeat sampleConfig2
    (by decide) (Or.inl (by decide)) (by decide)

/-- C9: on disconnect, a room where the transport holds a seat is left
completely untouched (and broadcasts nothing) when PLAYING; when in LOBBY
the seat is spliced out and the new roster broadcast, the room is deleted
if it became empty, and host privilege passes to the new roster index 0
exactly when the removed seat's transport id held it. -/
theorem disconnect_room_spec (room : Room) (sid : String)
    (hSeat : (room.players.find? fun q => q.socketId = sid).isSome) :
    (room.phase = RoomPhase.PLAYING → disconnectRoom room sid = (some room, [])) ∧
    (room.phase = RoomPhase.LOBBY →
      (disconnectRoom room sid).2 =
        [Effect.updatePlayers room.id
          (removeFirst (fun q => q.socketId = sid) room.players)] ∧
      (removeFirst (fun q => q.socketId = sid) room.players = [] →
        (disconnectRoom room sid).1 = none) ∧
      (∀ (t : Seat) (rest : List Seat),
        removeFirst (fun q => q.socketId = sid) room.players = t :: rest →
        (disconnectRoom room sid).1 =
          some { room with
                   players := t :: rest
                   hostId := if room.hostId = sid then t.socketId else room.hostId })) := by
  obtain ⟨ex, hex⟩ := Option.isSome_iff_exists.mp hSeat
  constructor
  · intro hP
    simp [disconnectRoom, hex, hP]
  · intro hL
    refine ⟨?_, ?_, ?_⟩
    · cases hrm : removeFirst (fun q => q.socketId = sid) room.players <;>
        simp [disconnectRoom, hex, hL, hrm]
    · intro hrm
      simp [disconnectRoom, hex, hL, hrm]
    · intro t rest hrm
      simp [disconnectRoom, hex, hL, hrm]

/-- Concrete instance of C9: the sole seat's transport disconnects from a
LOBBY room; the empty roster is broadcast and the room is deleted. -/
theorem disconnect_room_spec_witness :
    (disconnectRoom sampleLobbyRoom "h1").2 =
      [Effect.updatePlayers sampleLobbyRoom.id
        (removeFirst (fun q => q.socketId = "h1") sampleLobbyRoom.players)] ∧
    (disconnectRoom sampleLobbyRoom "h1").1 = none :=
  ⟨((disconnect_room_spec sampleLobbyRoom "h1" (by decide)).2 rfl).1,
   ((disconnect_room_spec sampleLobbyRoom "h1" (by decide)).2 rfl).2.1 (by decide)⟩

/-- C10: every seat created by `create_room`, and every seat appended by
`join_room` for a new stable identity, starts with score 0 and streak 0,
whatever score or streak the caller-supplied payload carried. -/
theorem fresh_seat_zeroed (rid sid : String) (p : PlayerPayload) (cfg : Config)
    (room : Room) :
    ((createRoom rid sid p cfg).players = [mkSeat p sid] ∧
      (mkSeat p sid).score = 0 ∧ (mkSeat p sid).streak = 0) ∧
    (room.phase = RoomPhase.LOBBY → room.players.length < 8 →
      (room.players.find? fun q => q.id = p.id) = none →
      (joinRoom room sid p).2.players = room.players ++ [mkSeat p sid]) := by
  refine ⟨⟨rfl, rfl, rfl⟩, ?_⟩
  intro hPhase hLen hNone
  have h8 : ¬ (8 ≤ room.players.length) := not_le.mpr hLen
  simp [joinRoom, hNone, hPhase, h8]

/-- Concrete instance of C10: a payload preloaded with score 999 and
streak 7 is seated with score 0 and streak 0 in both entry paths. -/
theorem fresh_seat_zeroed_witness :
    ((createRoom "R2" "s9"
        { id := "mallory", name := "Mallory", avatar := "m.png",
          score := 999, streak := 7, correctAnswersCount := 3 } sampleConfig).players =
      [mkSeat
        { id := "mallory", name := "Mallory", avatar := "m.png",
          score := 999, streak := 7, correctAnswersCount := 3 } "s9"] ∧
      (mkSeat
        { id := "mallory", name := "Mallory", avatar := "m.png",
          score := 999, streak := 7, correctAnswersCount := 3 } "s9").score = 0 ∧
      (mkSeat
        { id := "mallory", name := "Mallory", avatar := "m.png",
          score := 999, streak := 7, correctAnswersCount := 3 } "s9").streak = 0) ∧
    (joinRoom sampleLobbyRoom "s9"
        { id := "mallory", name := "Mallory", avatar := "m.png",
          score := 999, streak := 7, correctAnswersCount := 3 }).2.players =
      sampleLobbyRoom.players ++
        [mkSeat
          { id := "mallory", name := "Mallory", avatar := "m.png",
            score := 999, streak := 7, correctAnswersCount := 3 } "s9"] :=
  ⟨(fresh_seat_zeroed "R2" "s9"
      { id := "mallory", name := "Mallory", avatar := "m.png",
        score := 999, streak := 7, correctAnswersCount := 3 } sampleConfig
      sampleLobbyRoom).1,
   (fresh_seat_zeroed "R2" "s9"
      { id := "mallory", name := "Mallory", avatar := "m.png",
        score := 999, streak := 7, correctAnswersCount := 3 } sampleConfig
      sampleLobbyRoom).2 rfl (by decide) (by decide)⟩

end Quiz
